import Mathlib

/-!
# Hardware cursor controller of the D3D9 front end (src/d3d9/d3d9_cursor.cpp)

The three methods of `D3D9Cursor` are embedded as pure functions that pass the
controller object and the chronological trace of operating-system calls
explicitly.  Every answer of the operating system (the outcome of a position
query, the handles returned by bitmap and icon creation) is read from an
oracle `Os` that may depend on the whole history of calls, so a statement
quantified over `Os` holds for every behaviour of the system.
-/

namespace dxvk

/-- Win32 `BOOL` is a C `int`; every non-zero value is truthy. -/
abbrev BOOL := Int

/-- Win32 `FALSE`. -/
def FALSE : BOOL := 0

/-- Win32 `TRUE`. -/
def TRUE : BOOL := 1

/-- Cursor handle, as an address; `0` is the null handle. -/
abbrev HCURSOR := Nat

/-- Bitmap handle, as an address; `0` is the null handle. -/
abbrev HBITMAP := Nat

/-- The null handle. -/
def nullptr : Nat := 0

/-- Win32 `HRESULT`. -/
abbrev HRESULT := Int

/-- The Direct3D success status (`S_OK`). -/
def D3D_OK : HRESULT := 0

/-- Modelled from the spec: the fixed icon width declared in d3d9_cursor.h
(the spec gives 32, which is also the length of the `mask` array). -/
def HardwareCursorWidth : Nat := 32

/-- Modelled from the spec: the fixed icon height declared in d3d9_cursor.h
(the spec gives 32). -/
def HardwareCursorHeight : Nat := 32

/-- Modelled from the spec: `CursorBitmap`, the externally supplied pixel
buffer declared in d3d9_cursor.h, as its sequence of bytes. -/
abbrev CursorBitmap := List Nat

/-- Win32 `POINT`.  Modelled from the spec: the comparison `operator ==` of
d3d9_util.h is the field-wise equality which the spec words as "the current
position already equals (x, y)"; it is the derived decidable equality. -/
structure POINT where
  x : Int
  y : Int
  deriving DecidableEq, Repr

/-- Win32 `ICONINFO`. -/
structure ICONINFO where
  fIcon : BOOL
  xHotspot : Nat
  yHotspot : Nat
  hbmMask : HBITMAP
  hbmColor : HBITMAP
  deriving DecidableEq, Repr

/-- One call into the operating system, together with what it answered. -/
inductive OsCall where
  | GetCursorPos (ok : BOOL) (pos : POINT)
  | SetCursorPos (X Y : Int)
  | SetCursor (hCursor : HCURSOR)
  | CreateBitmap (nWidth nHeight nPlanes nBitCount : Nat) (bits : List Nat) (result : HBITMAP)
  | DestroyCursor (hCursor : HCURSOR)
  | CreateIconIndirect (info : ICONINFO) (result : HCURSOR)
  | DeleteObject (h : HBITMAP)
  deriving DecidableEq, Repr

/-- Chronological trace of the calls issued so far (oldest first). -/
abbrev Trace := List OsCall

/-- Answers of the operating system, as functions of the calls issued so far
and of the arguments of the call being answered. -/
structure Os where
  -- success flag and contents of the buffer after the query, given the
  -- contents of the buffer before it
  GetCursorPos : Trace → POINT → BOOL × POINT
  CreateBitmap : Trace → Nat → Nat → Nat → Nat → List Nat → HBITMAP
  CreateIconIndirect : Trace → ICONINFO → HCURSOR

/-- The members of `D3D9Cursor` that the three methods read or write. -/
structure D3D9Cursor where
  m_forceHide : Bool
  m_visible : BOOL
  m_hCursor : HCURSOR
  deriving DecidableEq, Repr

/-- `void D3D9Cursor::UpdateCursor(int X, int Y)`. -/
def D3D9Cursor.UpdateCursor (os : Os) (self : D3D9Cursor) (t : Trace) (X Y : Int) :
    D3D9Cursor × Trace :=
  let currentPos : POINT := { x := 0, y := 0 }
  let r := os.GetCursorPos t currentPos
  let t := t ++ [OsCall.GetCursorPos r.1 r.2]
  let currentPos := r.2
  if r.1 ≠ 0 ∧ currentPos = { x := X, y := Y } then
    (self, t)
  else
    (self, t ++ [OsCall.SetCursorPos X Y])

/-- `BOOL D3D9Cursor::ShowCursor(BOOL bShow)`: returned value, object and
trace afterwards. -/
def D3D9Cursor.ShowCursor (self : D3D9Cursor) (t : Trace) (bShow : BOOL) :
    BOOL × D3D9Cursor × Trace :=
  let bShow := if self.m_forceHide then FALSE else bShow
  let t := t ++ [OsCall.SetCursor (if bShow ≠ 0 then self.m_hCursor else nullptr)]
  (self.m_visible, { self with m_visible := bShow }, t)

/-- `HRESULT D3D9Cursor::SetHardwareCursor(UINT XHotSpot, UINT YHotSpot,
const CursorBitmap& bitmap)`: returned value, object and trace afterwards. -/
def D3D9Cursor.SetHardwareCursor (os : Os) (self : D3D9Cursor) (t : Trace)
    (XHotSpot YHotSpot : Nat) (bitmap : CursorBitmap) : HRESULT × D3D9Cursor × Trace :=
  let mask : List Nat := List.replicate 32 0xFFFFFFFF
  let hbmMask := os.CreateBitmap t HardwareCursorWidth HardwareCursorHeight 1 1 mask
  let t := t ++ [OsCall.CreateBitmap HardwareCursorWidth HardwareCursorHeight 1 1 mask hbmMask]
  let hbmColor := os.CreateBitmap t HardwareCursorWidth HardwareCursorHeight 1 32 bitmap
  let t := t ++ [OsCall.CreateBitmap HardwareCursorWidth HardwareCursorHeight 1 32 bitmap hbmColor]
  let info : ICONINFO :=
    { fIcon := FALSE, xHotspot := XHotSpot, yHotspot := YHotSpot,
      hbmMask := hbmMask, hbmColor := hbmColor }
  let t := if self.m_hCursor ≠ nullptr then t ++ [OsCall.DestroyCursor self.m_hCursor] else t
  let hIcon := os.CreateIconIndirect t info
  let t := t ++ [OsCall.CreateIconIndirect info hIcon]
  let self := { self with m_hCursor := hIcon }
  let t := t ++ [OsCall.DeleteObject info.hbmMask]
  let t := t ++ [OsCall.DeleteObject info.hbmColor]
  let r := self.ShowCursor t self.m_visible
  (D3D_OK, r.2.1, r.2.2)

/-! ## Observations on traces -/

/-- Handles returned by the `CreateIconIndirect` calls of a trace, in order. -/
def created (t : Trace) : List HCURSOR :=
  t.filterMap fun c => match c with
    | OsCall.CreateIconIndirect _ r => some r
    | _ => none

/-- Handles passed to the `DestroyCursor` calls of a trace, in order. -/
def destroyed (t : Trace) : List HCURSOR :=
  t.filterMap fun c => match c with
    | OsCall.DestroyCursor h => some h
    | _ => none

/-- Arguments of the `SetCursor` calls of a trace, in order. -/
def setCursorCalls (t : Trace) : List HCURSOR :=
  t.filterMap fun c => match c with
    | OsCall.SetCursor h => some h
    | _ => none

/-- Arguments of the `SetCursorPos` calls of a trace, in order. -/
def setCursorPosCalls (t : Trace) : List (Int × Int) :=
  t.filterMap fun c => match c with
    | OsCall.SetCursorPos X Y => some (X, Y)
    | _ => none

/-- The active cursor of the system: the argument of the last `SetCursor`
call, "no cursor" (null) when there was none. -/
def activeCursor (t : Trace) : HCURSOR :=
  t.foldl (fun cur c => match c with
    | OsCall.SetCursor h => h
    | _ => cur) nullptr

/-- Created icon handles that were never passed to `DestroyCursor`. -/
def liveIcons (t : Trace) : List HCURSOR :=
  (created t).filter fun h => decide (h ∉ destroyed t)

/-- Number of icons of the controller that are live after the calls `t`, when
`owned` icons were live before them (one per creation, minus one per
destruction). -/
def liveCount (owned : Int) (t : Trace) : Int :=
  owned + (created t).length - (destroyed t).length

/-! ## Sequences of calls -/

/-- A request of the emulated API layer. -/
inductive Call where
  | UpdateCursor (X Y : Int)
  | ShowCursor (bShow : BOOL)
  | SetHardwareCursor (XHotSpot YHotSpot : Nat) (bitmap : CursorBitmap)
  deriving DecidableEq, Repr

/-- Whether the request is a `SetHardwareCursor`. -/
def Call.isSetHardwareCursor : Call → Bool
  | Call.SetHardwareCursor _ _ _ => true
  | _ => false

/-- Object and trace after one request. -/
def step (os : Os) (s : D3D9Cursor × Trace) : Call → D3D9Cursor × Trace
  | Call.UpdateCursor X Y => s.1.UpdateCursor os s.2 X Y
  | Call.ShowCursor bShow => (s.1.ShowCursor s.2 bShow).2
  | Call.SetHardwareCursor XHotSpot YHotSpot bitmap =>
      (s.1.SetHardwareCursor os s.2 XHotSpot YHotSpot bitmap).2

/-- Object and trace after a sequence of requests, issued from left to right. -/
def run (os : Os) (s : D3D9Cursor × Trace) (calls : List Call) : D3D9Cursor × Trace :=
  calls.foldl (step os) s

/-- Values returned by a sequence of `ShowCursor` calls, in order, with the
object and trace after the last one. -/
def showAll (self : D3D9Cursor) (t : Trace) : List BOOL → List BOOL × D3D9Cursor × Trace
  | [] => ([], self, t)
  | b :: bs =>
      let r := self.ShowCursor t b
      let rest := showAll r.2.1 r.2.2 bs
      (r.1 :: rest.1, rest.2)

/-- The trace that one `SetHardwareCursor` call appends to the trace `t`. -/
def setHardwareCursorTrace (os : Os) (self : D3D9Cursor) (t : Trace)
    (XHotSpot YHotSpot : Nat) (bitmap : CursorBitmap) : Trace :=
  (self.SetHardwareCursor os t XHotSpot YHotSpot bitmap).2.2.drop t.length

/-! ## Invariants of the icon slot -/

/-- Single-owner state of the icon slot.  Before the first `SetHardwareCursor`
(`armed = false`) nothing is owned, created or destroyed; after it
(`armed = true`) the owned handle is non-null and is the last handle created,
all the earlier ones having been destroyed, in the order of their creation;
and no handle was created twice. -/
def SingleOwner (armed : Bool) (s : D3D9Cursor × Trace) : Prop :=
  (created s.2).Nodup ∧
  if armed then
    s.1.m_hCursor ≠ nullptr ∧ created s.2 = destroyed s.2 ++ [s.1.m_hCursor]
  else
    s.1.m_hCursor = nullptr ∧ created s.2 = [] ∧ destroyed s.2 = []

/-- No destroyed handle is referenced: the owned handle is null or a created
handle that was not destroyed, the active cursor of the system is null or the
owned handle, and only created handles were destroyed. -/
def NoDangling (s : D3D9Cursor × Trace) : Prop :=
  (∀ h ∈ destroyed s.2, h ∈ created s.2) ∧
  (s.1.m_hCursor = nullptr ∨ (s.1.m_hCursor ∈ created s.2 ∧ s.1.m_hCursor ∉ destroyed s.2)) ∧
  (activeCursor s.2 = nullptr ∨ activeCursor s.2 = s.1.m_hCursor)

/-! ## Concrete systems used to instantiate the theorems -/

/-- A system whose position query succeeds and reports the last position
set (the origin before any), and whose icon creation always returns a handle
above every handle it returned before. -/
def osFresh : Os where
  GetCursorPos := fun t _ =>
    (TRUE, match (setCursorPosCalls t).getLast? with
      | some p => { x := p.1, y := p.2 }
      | none => { x := 0, y := 0 })
  CreateBitmap := fun t _ _ _ _ _ => 1000 + t.length
  CreateIconIndirect := fun t _ => (created t).sum + 1

/-- A system whose position query fails and whose bitmap and icon creation
fail (null handles). -/
def osFailing : Os where
  GetCursorPos := fun _ buf => (FALSE, buf)
  CreateBitmap := fun _ _ _ _ _ _ => nullptr
  CreateIconIndirect := fun _ _ => nullptr

/-- A system whose icon creation fails (null handle) on every second call
and otherwise returns a handle above every handle it returned before. -/
def osFlaky : Os where
  GetCursorPos := fun _ buf => (TRUE, buf)
  CreateBitmap := fun t _ _ _ _ _ => 1000 + t.length
  CreateIconIndirect := fun t _ =>
    if (created t).length % 2 = 1 then nullptr else (created t).sum + 1

/-- A sample 32-bit bitmap (contents are irrelevant to the controller). -/
def sampleBitmap : CursorBitmap := [255, 0, 0, 255]

/-! ## Trace observations under appended calls -/

theorem created_append (t u : Trace) : created (t ++ u) = created t ++ created u := by
  simp [created, List.filterMap_append]

theorem destroyed_append (t u : Trace) : destroyed (t ++ u) = destroyed t ++ destroyed u := by
  simp [destroyed, List.filterMap_append]

theorem setCursorCalls_append (t u : Trace) :
    setCursorCalls (t ++ u) = setCursorCalls t ++ setCursorCalls u := by
  simp [setCursorCalls, List.filterMap_append]

theorem setCursorPosCalls_append (t u : Trace) :
    setCursorPosCalls (t ++ u) = setCursorPosCalls t ++ setCursorPosCalls u := by
  simp [setCursorPosCalls, List.filterMap_append]

theorem activeCursor_append_setCursor (t : Trace) (h : HCURSOR) :
    activeCursor (t ++ [OsCall.SetCursor h]) = h := by
  simp [activeCursor, List.foldl_append]

/-- The trace after `ShowCursor` is the trace before it followed by one
`SetCursor` call. -/
theorem ShowCursor_trace (self : D3D9Cursor) (t : Trace) (bShow : BOOL) :
    (self.ShowCursor t bShow).2.2 =
      t ++ [OsCall.SetCursor
        (if bShow ≠ 0 ∧ self.m_forceHide = false then self.m_hCursor else nullptr)] := by
  cases hf : self.m_forceHide <;> simp [D3D9Cursor.ShowCursor, hf, FALSE]

/-- The object after `ShowCursor`. -/
theorem ShowCursor_self (self : D3D9Cursor) (t : Trace) (bShow : BOOL) :
    (self.ShowCursor t bShow).2.1 =
      { self with m_visible := if self.m_forceHide then FALSE else bShow } := rfl

/-- Values returned by a sequence of `ShowCursor` calls: the stored value,
then the value each call but the last one stores. -/
theorem showAll_returns (self : D3D9Cursor) (t : Trace) (shows : List BOOL) :
    (showAll self t shows).1 =
      (self.m_visible :: shows.map fun b => if self.m_forceHide then FALSE else b).dropLast := by
  induction shows generalizing self t with
  | nil => simp [showAll]
  | cons b bs ih =>
    simp only [showAll, List.map_cons]
    rw [ih]
    simp [ShowCursor_self, D3D9Cursor.ShowCursor]

/-- With the hide policy on, a sequence of `ShowCursor` calls appends one
`SetCursor(nullptr)` per call. -/
theorem showAll_forceHide_trace (self : D3D9Cursor) (t : Trace) (shows : List BOOL)
    (hf : self.m_forceHide = true) :
    (showAll self t shows).2.2 = t ++ List.replicate shows.length (OsCall.SetCursor nullptr) := by
  induction shows generalizing self t with
  | nil => simp [showAll]
  | cons b bs ih =>
    simp only [showAll]
    rw [ih _ _ (by simp [ShowCursor_self, hf]), ShowCursor_trace]
    simp [hf, List.replicate_succ]

/-! ## ShowCursor -/

/-- C1 (as the claim states it, refuted): with the hide policy on,
`ShowCursor(TRUE)` stores `FALSE`, not the requested `TRUE`. -/
theorem C1_stored_visibility_counterexample :
    (({ m_forceHide := true, m_visible := FALSE, m_hCursor := 7 } : D3D9Cursor).ShowCursor
        [] TRUE).2.1.m_visible = FALSE ∧
    (({ m_forceHide := true, m_visible := FALSE, m_hCursor := 7 } : D3D9Cursor).ShowCursor
        [] TRUE).2.1.m_visible ≠ TRUE := by
  decide

/-- C1 (amended): after `ShowCursor(show)` the stored visibility is the
effective value, that is `FALSE` when the hide policy is on and the requested
value `show` when it is off; the policy flag and the owned icon are unchanged. -/
theorem C1_stored_visibility_is_effective (self : D3D9Cursor) (t : Trace) (bShow : BOOL) :
    (self.ShowCursor t bShow).2.1.m_visible = (if self.m_forceHide then FALSE else bShow) ∧
    (self.ShowCursor t bShow).2.1.m_forceHide = self.m_forceHide ∧
    (self.ShowCursor t bShow).2.1.m_hCursor = self.m_hCursor :=
  ⟨rfl, rfl, rfl⟩

/-- C2: `ShowCursor(show)` appends exactly one call to the trace, a
`SetCursor` whose argument is the owned icon handle when `show` is truthy and
the hide policy is off, and null otherwise; and with the hide policy on a
sequence of `ShowCursor` calls appends one `SetCursor(nullptr)` per call,
whatever the requested values. -/
theorem C2_one_SetCursor_call (self : D3D9Cursor) (t : Trace) (bShow : BOOL)
    (shows : List BOOL) :
    (self.ShowCursor t bShow).2.2 =
      t ++ [OsCall.SetCursor
        (if bShow ≠ 0 ∧ self.m_forceHide = false then self.m_hCursor else nullptr)] ∧
    (showAll { self with m_forceHide := true } t shows).2.2 =
      t ++ List.replicate shows.length (OsCall.SetCursor nullptr) :=
  ⟨ShowCursor_trace self t bShow, showAll_forceHide_trace _ t shows rfl⟩

/-- C3: `ShowCursor(show)` returns the visibility stored before the call,
whatever `show` and the hide policy are. -/
theorem C3_returns_previous_visibility (self : D3D9Cursor) (t : Trace) (bShow : BOOL) :
    (self.ShowCursor t bShow).1 = self.m_visible :=
  rfl

/-- C4 (as the claim states it, refuted): with the hide policy on,
`ShowCursor(TRUE); ShowCursor(FALSE)` returns the initial value and then
`FALSE`, not the argument `TRUE` of the preceding call. -/
theorem C4_history_counterexample :
    (showAll { m_forceHide := true, m_visible := FALSE, m_hCursor := 7 } [] [TRUE, FALSE]).1 =
      [FALSE, FALSE] ∧
    (showAll { m_forceHide := true, m_visible := FALSE, m_hCursor := 7 } [] [TRUE, FALSE]).1 ≠
      [FALSE, TRUE] := by
  decide

/-- C4 (amended): a sequence of `ShowCursor` calls returns one value per
call; the first is the initial stored visibility and every later one is the
value stored by the immediately preceding call, which is the argument of that
call when the hide policy is off and `FALSE` when it is on. -/
theorem C4_history_of_stored_values (self : D3D9Cursor) (t : Trace) (shows : List BOOL) :
    (showAll self t shows).1.length = shows.length ∧
    (shows ≠ [] → (showAll self t shows).1.head? = some self.m_visible) ∧
    (∀ i, i + 1 < shows.length →
      (showAll self t shows).1[i + 1]? =
        shows[i]?.map fun b => if self.m_forceHide then FALSE else b) ∧
    (self.m_forceHide = false → ∀ i, i + 1 < shows.length →
      (showAll self t shows).1[i + 1]? = shows[i]?) := by
  rw [showAll_returns]
  refine ⟨by simp, ?_, ?_, ?_⟩
  · intro hne
    cases shows with
    | nil => exact absurd rfl hne
    | cons b bs => simp [List.dropLast]
  · intro i hi
    rw [List.getElem?_dropLast]
    simp [hi]
  · intro hf i hi
    rw [List.getElem?_dropLast]
    simp [hi, hf]

/-- Instance of the history theorem: with the hide policy off the second of two
calls returns the argument of the first. -/
theorem C4_history_of_stored_values_witness :
    (showAll { m_forceHide := false, m_visible := FALSE, m_hCursor := 7 } [] [TRUE, FALSE]).1[1]? =
      [TRUE, FALSE][0]? :=
  (C4_history_of_stored_values { m_forceHide := false, m_visible := FALSE, m_hCursor := 7 } []
    [TRUE, FALSE]).2.2.2 rfl 0 (by decide)

/-! ## UpdateCursor -/

/-- C5: `UpdateCursor(X, Y)` always issues the position query; it issues no
`SetCursorPos` call exactly when the query succeeds and reports `(X, Y)`, and
in every other case (another position, or a failed query whatever the buffer
then holds) it issues exactly one, with arguments `(X, Y)`; the controller
object is unchanged. -/
theorem C5_UpdateCursor_calls (os : Os) (self : D3D9Cursor) (t : Trace) (X Y : Int) :
    (self.UpdateCursor os t X Y).1 = self ∧
    (self.UpdateCursor os t X Y).2 =
      t ++ OsCall.GetCursorPos (os.GetCursorPos t { x := 0, y := 0 }).1
            (os.GetCursorPos t { x := 0, y := 0 }).2 ::
        (if (os.GetCursorPos t { x := 0, y := 0 }).1 ≠ 0 ∧
            (os.GetCursorPos t { x := 0, y := 0 }).2 = { x := X, y := Y }
          then [] else [OsCall.SetCursorPos X Y]) ∧
    setCursorPosCalls (self.UpdateCursor os t X Y).2 =
      setCursorPosCalls t ++
        (if (os.GetCursorPos t { x := 0, y := 0 }).1 ≠ 0 ∧
            (os.GetCursorPos t { x := 0, y := 0 }).2 = { x := X, y := Y }
          then [] else [(X, Y)]) ∧
    (setCursorPosCalls (self.UpdateCursor os t X Y).2 = setCursorPosCalls t ↔
      ((os.GetCursorPos t { x := 0, y := 0 }).1 ≠ 0 ∧
        (os.GetCursorPos t { x := 0, y := 0 }).2 = { x := X, y := Y })) := by
  by_cases h : (os.GetCursorPos t { x := 0, y := 0 }).1 ≠ 0 ∧
      (os.GetCursorPos t { x := 0, y := 0 }).2 = { x := X, y := Y }
  · simp only [D3D9Cursor.UpdateCursor, if_pos h]
    simp [setCursorPosCalls_append, setCursorPosCalls, h]
  · simp only [D3D9Cursor.UpdateCursor, if_neg h]
    simp [setCursorPosCalls_append, setCursorPosCalls, h]

/-! ## SetHardwareCursor -/

/-- What `SetHardwareCursor` returns, stores and appends to the trace. -/
theorem SetHardwareCursor_eq (os : Os) (self : D3D9Cursor) (t : Trace)
    (XHotSpot YHotSpot : Nat) (bitmap : CursorBitmap) :
    ∃ (hbmMask hbmColor : HBITMAP) (bits : List Nat) (info : ICONINFO) (hIcon : HCURSOR)
      (t3 : Trace),
      t3 = [OsCall.CreateBitmap HardwareCursorWidth HardwareCursorHeight 1 1 bits hbmMask,
          OsCall.CreateBitmap HardwareCursorWidth HardwareCursorHeight 1 32 bitmap hbmColor] ++
        (if self.m_hCursor ≠ nullptr then [OsCall.DestroyCursor self.m_hCursor] else []) ∧
      hIcon = os.CreateIconIndirect (t ++ t3) info ∧
      self.SetHardwareCursor os t XHotSpot YHotSpot bitmap =
        (D3D_OK,
         { self with
            m_hCursor := hIcon
            m_visible := if self.m_forceHide then FALSE else self.m_visible },
         t ++ (t3 ++ [OsCall.CreateIconIndirect info hIcon, OsCall.DeleteObject hbmMask,
          OsCall.DeleteObject hbmColor,
          OsCall.SetCursor
            (if self.m_visible ≠ 0 ∧ self.m_forceHide = false then hIcon else nullptr)])) := by
  refine ⟨os.CreateBitmap t HardwareCursorWidth HardwareCursorHeight 1 1
      (List.replicate 32 0xFFFFFFFF),
    os.CreateBitmap
      (t ++ [OsCall.CreateBitmap HardwareCursorWidth HardwareCursorHeight 1 1
        (List.replicate 32 0xFFFFFFFF)
        (os.CreateBitmap t HardwareCursorWidth HardwareCursorHeight 1 1
          (List.replicate 32 0xFFFFFFFF))])
      HardwareCursorWidth HardwareCursorHeight 1 32 bitmap,
    List.replicate 32 0xFFFFFFFF,
    { fIcon := FALSE, xHotspot := XHotSpot, yHotspot := YHotSpot,
      hbmMask := os.CreateBitmap t HardwareCursorWidth HardwareCursorHeight 1 1
        (List.replicate 32 0xFFFFFFFF),
      hbmColor := os.CreateBitmap
        (t ++ [OsCall.CreateBitmap HardwareCursorWidth HardwareCursorHeight 1 1
          (List.replicate 32 0xFFFFFFFF)
          (os.CreateBitmap t HardwareCursorWidth HardwareCursorHeight 1 1
            (List.replicate 32 0xFFFFFFFF))])
        HardwareCursorWidth HardwareCursorHeight 1 32 bitmap },
    _, _, rfl, rfl, ?_⟩
  by_cases hc : self.m_hCursor = nullptr <;> cases hf : self.m_forceHide <;>
    simp [D3D9Cursor.SetHardwareCursor, D3D9Cursor.ShowCursor, hc, hf, FALSE]

/-- The trace appended by `SetHardwareCursor`, call by call. -/
theorem setHardwareCursorTrace_eq (os : Os) (self : D3D9Cursor) (t : Trace)
    (XHotSpot YHotSpot : Nat) (bitmap : CursorBitmap) :
    ∃ (hbmMask hbmColor : HBITMAP) (bits : List Nat) (info : ICONINFO),
      setHardwareCursorTrace os self t XHotSpot YHotSpot bitmap =
        [OsCall.CreateBitmap HardwareCursorWidth HardwareCursorHeight 1 1 bits hbmMask,
          OsCall.CreateBitmap HardwareCursorWidth HardwareCursorHeight 1 32 bitmap hbmColor] ++
        (if self.m_hCursor ≠ nullptr then [OsCall.DestroyCursor self.m_hCursor] else []) ++
        [OsCall.CreateIconIndirect info
            (self.SetHardwareCursor os t XHotSpot YHotSpot bitmap).2.1.m_hCursor,
          OsCall.DeleteObject hbmMask, OsCall.DeleteObject hbmColor,
          OsCall.SetCursor
            (if self.m_visible ≠ 0 ∧ self.m_forceHide = false
              then (self.SetHardwareCursor os t XHotSpot YHotSpot bitmap).2.1.m_hCursor
              else nullptr)] := by
  obtain ⟨hbmMask, hbmColor, bits, info, hIcon, t3, ht3, -, heq⟩ :=
    SetHardwareCursor_eq os self t XHotSpot YHotSpot bitmap
  refine ⟨hbmMask, hbmColor, bits, info, ?_⟩
  simp only [setHardwareCursorTrace, heq, List.drop_left, ht3, List.append_assoc]

/-- The trace after `SetHardwareCursor` extends the trace before it by the
appended trace. -/
theorem SetHardwareCursor_trace (os : Os) (self : D3D9Cursor) (t : Trace)
    (XHotSpot YHotSpot : Nat) (bitmap : CursorBitmap) :
    (self.SetHardwareCursor os t XHotSpot YHotSpot bitmap).2.2 =
      t ++ setHardwareCursorTrace os self t XHotSpot YHotSpot bitmap := by
  obtain ⟨hbmMask, hbmColor, bits, info, hIcon, t3, ht3, -, heq⟩ :=
    SetHardwareCursor_eq os self t XHotSpot YHotSpot bitmap
  simp only [setHardwareCursorTrace, heq, List.drop_left]

/-- C10: whatever the system answers, `SetHardwareCursor` returns `D3D_OK`;
the handle it stores is the one returned by its single `CreateIconIndirect`
call, null included, and its single `SetCursor` call receives that handle or
null, so a failed creation is stored and passed on as "no cursor" instead of
being reported. -/
theorem C10_always_D3D_OK (os : Os) (self : D3D9Cursor) (t : Trace)
    (XHotSpot YHotSpot : Nat) (bitmap : CursorBitmap) :
    (self.SetHardwareCursor os t XHotSpot YHotSpot bitmap).1 = D3D_OK ∧
    created (setHardwareCursorTrace os self t XHotSpot YHotSpot bitmap) =
      [(self.SetHardwareCursor os t XHotSpot YHotSpot bitmap).2.1.m_hCursor] ∧
    setCursorCalls (setHardwareCursorTrace os self t XHotSpot YHotSpot bitmap) =
      [if self.m_visible ≠ 0 ∧ self.m_forceHide = false
        then (self.SetHardwareCursor os t XHotSpot YHotSpot bitmap).2.1.m_hCursor
        else nullptr] ∧
    ((self.SetHardwareCursor os t XHotSpot YHotSpot bitmap).2.1.m_hCursor = nullptr →
      setCursorCalls (setHardwareCursorTrace os self t XHotSpot YHotSpot bitmap) = [nullptr] ∧
      activeCursor (self.SetHardwareCursor os t XHotSpot YHotSpot bitmap).2.2 = nullptr) := by
  obtain ⟨hbmMask, hbmColor, bits, info, htr⟩ :=
    setHardwareCursorTrace_eq os self t XHotSpot YHotSpot bitmap
  have hset : setCursorCalls (setHardwareCursorTrace os self t XHotSpot YHotSpot bitmap) =
      [if self.m_visible ≠ 0 ∧ self.m_forceHide = false
        then (self.SetHardwareCursor os t XHotSpot YHotSpot bitmap).2.1.m_hCursor
        else nullptr] := by
    rw [htr]
    by_cases hc : self.m_hCursor = nullptr <;>
      simp [setCursorCalls, List.filterMap_cons, hc]
  refine ⟨rfl, ?_, hset, ?_⟩
  · rw [htr]
    by_cases hc : self.m_hCursor = nullptr <;>
      simp [created, List.filterMap_cons, hc]
  · intro hnull
    constructor
    · rw [hset, hnull]; simp
    · rw [SetHardwareCursor_trace, htr, hnull]
      simp [activeCursor, List.foldl_append]

/-- Instance of the success theorem on a system whose creations all fail. -/
theorem C10_always_D3D_OK_witness :
    ((⟨false, TRUE, nullptr⟩ : D3D9Cursor).SetHardwareCursor osFailing [] 0 0 sampleBitmap).1 =
      D3D_OK ∧
    activeCursor
      ((⟨false, TRUE, nullptr⟩ : D3D9Cursor).SetHardwareCursor osFailing [] 0 0
        sampleBitmap).2.2 = nullptr :=
  ⟨(C10_always_D3D_OK osFailing ⟨false, TRUE, nullptr⟩ [] 0 0 sampleBitmap).1,
   ((C10_always_D3D_OK osFailing ⟨false, TRUE, nullptr⟩ [] 0 0 sampleBitmap).2.2.2 rfl).2⟩

/-- C7 (as the claim states it, refuted): from a state whose stored
visibility is true, `SetHardwareCursor` leaves "no cursor" active when the
hide policy is on (and then stores `FALSE`), although a non-null icon was
created; and with the policy off it leaves "no cursor" active when the icon
creation fails. -/
theorem C7_reassert_counterexample :
    (activeCursor
        ((⟨true, TRUE, nullptr⟩ : D3D9Cursor).SetHardwareCursor osFresh [] 0 0
          sampleBitmap).2.2 = nullptr ∧
      ((⟨true, TRUE, nullptr⟩ : D3D9Cursor).SetHardwareCursor osFresh [] 0 0
          sampleBitmap).2.1.m_hCursor = 1 ∧
      ((⟨true, TRUE, nullptr⟩ : D3D9Cursor).SetHardwareCursor osFresh [] 0 0
          sampleBitmap).2.1.m_visible = FALSE) ∧
    (activeCursor
        ((⟨false, TRUE, nullptr⟩ : D3D9Cursor).SetHardwareCursor osFailing [] 0 0
          sampleBitmap).2.2 = nullptr ∧
      ((⟨false, TRUE, nullptr⟩ : D3D9Cursor).SetHardwareCursor osFailing [] 0 0
          sampleBitmap).2.1.m_hCursor = nullptr) := by
  decide

/-- C7 (amended): from a state whose hide policy is off and whose stored
visibility is true, after `SetHardwareCursor` the active cursor of the system
is the handle returned by the `CreateIconIndirect` call of that very call
(hence not "no cursor" whenever the creation returned a non-null handle), and
the stored visibility is unchanged. -/
theorem C7_new_icon_active (os : Os) (self : D3D9Cursor) (t : Trace)
    (XHotSpot YHotSpot : Nat) (bitmap : CursorBitmap)
    (hf : self.m_forceHide = false) (hv : self.m_visible ≠ 0) :
    created (setHardwareCursorTrace os self t XHotSpot YHotSpot bitmap) =
      [(self.SetHardwareCursor os t XHotSpot YHotSpot bitmap).2.1.m_hCursor] ∧
    activeCursor (self.SetHardwareCursor os t XHotSpot YHotSpot bitmap).2.2 =
      (self.SetHardwareCursor os t XHotSpot YHotSpot bitmap).2.1.m_hCursor ∧
    (self.SetHardwareCursor os t XHotSpot YHotSpot bitmap).2.1.m_visible = self.m_visible ∧
    ((self.SetHardwareCursor os t XHotSpot YHotSpot bitmap).2.1.m_hCursor ≠ nullptr →
      activeCursor (self.SetHardwareCursor os t XHotSpot YHotSpot bitmap).2.2 ≠ nullptr) := by
  obtain ⟨hbmMask, hbmColor, bits, info, htr⟩ :=
    setHardwareCursorTrace_eq os self t XHotSpot YHotSpot bitmap
  have hact : activeCursor (self.SetHardwareCursor os t XHotSpot YHotSpot bitmap).2.2 =
      (self.SetHardwareCursor os t XHotSpot YHotSpot bitmap).2.1.m_hCursor := by
    rw [SetHardwareCursor_trace, htr]
    simp [activeCursor, List.foldl_append, hf, hv]
  refine ⟨?_, hact, ?_, ?_⟩
  · rw [htr]
    by_cases hc : self.m_hCursor = nullptr <;>
      simp [created, List.filterMap_cons, hc]
  · simp [D3D9Cursor.SetHardwareCursor, D3D9Cursor.ShowCursor, hf]
  · intro hne
    rw [hact]
    exact hne

/-- Instance of the re-assertion theorem: the first icon of the fresh system is
active after the call. -/
theorem C7_new_icon_active_witness :
    activeCursor
        ((⟨false, TRUE, nullptr⟩ : D3D9Cursor).SetHardwareCursor osFresh [] 0 0
          sampleBitmap).2.2 =
      ((⟨false, TRUE, nullptr⟩ : D3D9Cursor).SetHardwareCursor osFresh [] 0 0
          sampleBitmap).2.1.m_hCursor ∧
    ((⟨false, TRUE, nullptr⟩ : D3D9Cursor).SetHardwareCursor osFresh [] 0 0
          sampleBitmap).2.1.m_hCursor = 1 :=
  ⟨(C7_new_icon_active osFresh ⟨false, TRUE, nullptr⟩ [] 0 0 sampleBitmap rfl
      (by decide)).2.1, by decide⟩

/-- C8: in the trace of one `SetHardwareCursor` call there is exactly one
`CreateIconIndirect` call; when a non-null icon is owned on entry there is
exactly one `DestroyCursor` call, on that handle, and it comes before the
creation; when no icon is owned there is no `DestroyCursor` call; and after
every initial segment of the trace at most one icon of the controller is live
(and never a negative number, so nothing is destroyed twice). -/
theorem C8_destroy_before_create (os : Os) (self : D3D9Cursor) (t : Trace)
    (XHotSpot YHotSpot : Nat) (bitmap : CursorBitmap) :
    (created (setHardwareCursorTrace os self t XHotSpot YHotSpot bitmap)).length = 1 ∧
    (self.m_hCursor ≠ nullptr →
      destroyed (setHardwareCursorTrace os self t XHotSpot YHotSpot bitmap) =
        [self.m_hCursor] ∧
      ∃ before after,
        setHardwareCursorTrace os self t XHotSpot YHotSpot bitmap =
          before ++ OsCall.DestroyCursor self.m_hCursor :: after ∧
        created before = [] ∧ (created after).length = 1) ∧
    (self.m_hCursor = nullptr →
      destroyed (setHardwareCursorTrace os self t XHotSpot YHotSpot bitmap) = []) ∧
    (∀ n,
      0 ≤ liveCount (if self.m_hCursor ≠ nullptr then 1 else 0)
        ((setHardwareCursorTrace os self t XHotSpot YHotSpot bitmap).take n) ∧
      liveCount (if self.m_hCursor ≠ nullptr then 1 else 0)
        ((setHardwareCursorTrace os self t XHotSpot YHotSpot bitmap).take n) ≤ 1) := by
  obtain ⟨hbmMask, hbmColor, bits, info, htr⟩ :=
    setHardwareCursorTrace_eq os self t XHotSpot YHotSpot bitmap
  rw [htr]
  by_cases hc : self.m_hCursor = nullptr
  · refine ⟨by simp [created, List.filterMap_cons, hc], fun h => absurd hc h,
      fun _ => by simp [destroyed, List.filterMap_cons, hc], ?_⟩
    intro n
    rcases n with _ | _ | _ | _ | _ | _ | _ | n <;>
      simp [liveCount, created, destroyed, List.filterMap_cons, hc, List.take]
  · refine ⟨by simp [created, List.filterMap_cons, hc],
      fun _ => ⟨by simp [destroyed, List.filterMap_cons, hc], ?_⟩, fun h => absurd h hc, ?_⟩
    · refine ⟨[OsCall.CreateBitmap HardwareCursorWidth HardwareCursorHeight 1 1 bits hbmMask,
          OsCall.CreateBitmap HardwareCursorWidth HardwareCursorHeight 1 32 bitmap hbmColor],
        [OsCall.CreateIconIndirect info
            (self.SetHardwareCursor os t XHotSpot YHotSpot bitmap).2.1.m_hCursor,
          OsCall.DeleteObject hbmMask, OsCall.DeleteObject hbmColor,
          OsCall.SetCursor
            (if self.m_visible ≠ 0 ∧ self.m_forceHide = false
              then (self.SetHardwareCursor os t XHotSpot YHotSpot bitmap).2.1.m_hCursor
              else nullptr)],
        ?_, by simp [created, List.filterMap_cons], ?_⟩
      · simp only [if_pos hc, List.append_assoc, List.singleton_append]
      · simp [created, List.filterMap_cons]
    · intro n
      rcases n with _ | _ | _ | _ | _ | _ | _ | _ | n <;>
        simp [liveCount, created, destroyed, List.filterMap_cons, hc, List.take]

/-- Instance of the ordering theorem from a state owning handle 5: it is destroyed
once, and after the first three calls no icon is live. -/
theorem C8_destroy_before_create_witness :
    destroyed (setHardwareCursorTrace osFresh ⟨false, TRUE, 5⟩ [] 0 0 sampleBitmap) = [5] ∧
    liveCount 1 ((setHardwareCursorTrace osFresh ⟨false, TRUE, 5⟩ [] 0 0 sampleBitmap).take 3)
      = 0 :=
  ⟨((C8_destroy_before_create osFresh ⟨false, TRUE, 5⟩ [] 0 0 sampleBitmap).2.1
      (by decide)).1, by decide⟩

/-! ## Effect of each request on the observations -/

theorem UpdateCursor_obs (os : Os) (self : D3D9Cursor) (t : Trace) (X Y : Int) :
    (self.UpdateCursor os t X Y).1 = self ∧
    created (self.UpdateCursor os t X Y).2 = created t ∧
    destroyed (self.UpdateCursor os t X Y).2 = destroyed t ∧
    activeCursor (self.UpdateCursor os t X Y).2 = activeCursor t := by
  by_cases h : (os.GetCursorPos t { x := 0, y := 0 }).1 ≠ 0 ∧
      (os.GetCursorPos t { x := 0, y := 0 }).2 = { x := X, y := Y }
  · simp only [D3D9Cursor.UpdateCursor, if_pos h]
    simp [created, destroyed, activeCursor, List.filterMap_append, List.foldl_append]
  · simp only [D3D9Cursor.UpdateCursor, if_neg h]
    simp [created, destroyed, activeCursor, List.filterMap_append, List.foldl_append]

theorem ShowCursor_obs (self : D3D9Cursor) (t : Trace) (bShow : BOOL) :
    (self.ShowCursor t bShow).2.1.m_hCursor = self.m_hCursor ∧
    created (self.ShowCursor t bShow).2.2 = created t ∧
    destroyed (self.ShowCursor t bShow).2.2 = destroyed t ∧
    (activeCursor (self.ShowCursor t bShow).2.2 = nullptr ∨
      activeCursor (self.ShowCursor t bShow).2.2 = self.m_hCursor) := by
  refine ⟨rfl, ?_, ?_, ?_⟩
  · rw [ShowCursor_trace]; simp [created, List.filterMap_append]
  · rw [ShowCursor_trace]; simp [destroyed, List.filterMap_append]
  · rw [ShowCursor_trace, activeCursor_append_setCursor]
    split
    · exact Or.inr rfl
    · exact Or.inl rfl

theorem SetHardwareCursor_obs (os : Os) (self : D3D9Cursor) (t : Trace)
    (XHotSpot YHotSpot : Nat) (bitmap : CursorBitmap) :
    ∃ (t3 : Trace) (info : ICONINFO),
      created t3 = created t ∧
      (self.SetHardwareCursor os t XHotSpot YHotSpot bitmap).2.1.m_hCursor =
        os.CreateIconIndirect t3 info ∧
      created (self.SetHardwareCursor os t XHotSpot YHotSpot bitmap).2.2 =
        created t ++ [(self.SetHardwareCursor os t XHotSpot YHotSpot bitmap).2.1.m_hCursor] ∧
      destroyed (self.SetHardwareCursor os t XHotSpot YHotSpot bitmap).2.2 =
        destroyed t ++ (if self.m_hCursor ≠ nullptr then [self.m_hCursor] else []) ∧
      (activeCursor (self.SetHardwareCursor os t XHotSpot YHotSpot bitmap).2.2 = nullptr ∨
        activeCursor (self.SetHardwareCursor os t XHotSpot YHotSpot bitmap).2.2 =
          (self.SetHardwareCursor os t XHotSpot YHotSpot bitmap).2.1.m_hCursor) := by
  obtain ⟨hbmMask, hbmColor, bits, info, hIcon, t3, ht3, hI, heq⟩ :=
    SetHardwareCursor_eq os self t XHotSpot YHotSpot bitmap
  refine ⟨t ++ t3, info, ?_, ?_, ?_, ?_, ?_⟩
  · rw [ht3]
    by_cases hc : self.m_hCursor = nullptr <;>
      simp [created, List.filterMap_append, List.filterMap_cons, hc]
  · rw [heq]; exact hI
  · rw [heq, ht3]
    by_cases hc : self.m_hCursor = nullptr <;>
      simp [created, List.filterMap_append, List.filterMap_cons, hc]
  · rw [heq, ht3]
    by_cases hc : self.m_hCursor = nullptr <;>
      simp [destroyed, List.filterMap_append, List.filterMap_cons, hc]
  · rw [heq]
    simp only [activeCursor, List.foldl_append, List.foldl_cons, List.foldl_nil]
    split
    · exact Or.inr rfl
    · exact Or.inl rfl

/-! ## Preservation of the invariants -/

theorem SingleOwner_step (os : Os)
    (hfresh : ∀ t info, os.CreateIconIndirect t info ≠ nullptr ∧
      os.CreateIconIndirect t info ∉ created t)
    (armed : Bool) (s : D3D9Cursor × Trace) (c : Call) (h : SingleOwner armed s) :
    SingleOwner (armed || c.isSetHardwareCursor) (step os s c) := by
  obtain ⟨self, t⟩ := s
  cases c with
  | UpdateCursor X Y =>
    obtain ⟨h1, h2, h3, -⟩ := UpdateCursor_obs os self t X Y
    simpa [SingleOwner, step, Call.isSetHardwareCursor, h1, h2, h3] using h
  | ShowCursor bShow =>
    obtain ⟨h1, h2, h3, -⟩ := ShowCursor_obs self t bShow
    simpa [SingleOwner, step, Call.isSetHardwareCursor, h1, h2, h3] using h
  | SetHardwareCursor XHotSpot YHotSpot bitmap =>
    obtain ⟨t3, info, hc3, hI, hcr, hde, -⟩ :=
      SetHardwareCursor_obs os self t XHotSpot YHotSpot bitmap
    obtain ⟨hnn, hnotin⟩ := hfresh t3 info
    rw [← hI, hc3] at hnotin
    rw [← hI] at hnn
    obtain ⟨hnd, hrest⟩ := h
    simp only [SingleOwner, step, Call.isSetHardwareCursor, Bool.or_true, if_true]
    refine ⟨?_, hnn, ?_⟩
    · rw [hcr]
      exact List.Nodup.append hnd (List.nodup_singleton _) (by simpa using hnotin)
    · rw [hcr, hde]
      cases armed with
      | true =>
        simp only [if_true] at hrest
        simp [hrest.1, hrest.2]
      | false =>
        simp only [Bool.false_eq_true, if_false] at hrest
        simp [hrest.1, hrest.2.1, hrest.2.2]

theorem SingleOwner_run (os : Os)
    (hfresh : ∀ t info, os.CreateIconIndirect t info ≠ nullptr ∧
      os.CreateIconIndirect t info ∉ created t)
    (calls : List Call) (armed : Bool) (s : D3D9Cursor × Trace) (h : SingleOwner armed s) :
    SingleOwner (armed || calls.any Call.isSetHardwareCursor) (run os s calls) := by
  induction calls generalizing armed s with
  | nil => simpa [run] using h
  | cons c cs ih =>
    have h2 := ih _ _ (SingleOwner_step os hfresh armed s c h)
    simpa [run, List.any_cons, Bool.or_assoc] using h2

theorem NoDangling_step (os : Os)
    (hfresh : ∀ t info, os.CreateIconIndirect t info = nullptr ∨
      os.CreateIconIndirect t info ∉ created t)
    (s : D3D9Cursor × Trace) (c : Call) (h : NoDangling s) :
    NoDangling (step os s c) := by
  obtain ⟨self, t⟩ := s
  cases c with
  | UpdateCursor X Y =>
    obtain ⟨h1, h2, h3, h4⟩ := UpdateCursor_obs os self t X Y
    simpa [NoDangling, step, h1, h2, h3, h4] using h
  | ShowCursor bShow =>
    obtain ⟨h1, h2, h3, h4⟩ := ShowCursor_obs self t bShow
    obtain ⟨hsub, hown, -⟩ := h
    refine ⟨?_, ?_, ?_⟩
    · simpa [step, h2, h3] using hsub
    · simpa [step, h1, h2, h3] using hown
    · simpa [step, h1] using h4
  | SetHardwareCursor XHotSpot YHotSpot bitmap =>
    obtain ⟨t3, info, hc3, hI, hcr, hde, hact⟩ :=
      SetHardwareCursor_obs os self t XHotSpot YHotSpot bitmap
    obtain ⟨hsub, hown, -⟩ := h
    simp only [] at hsub hown
    have hdsub : ∀ h ∈ destroyed t ++ (if self.m_hCursor ≠ nullptr then [self.m_hCursor] else []),
        h ∈ created t := by
      intro h hh
      rcases List.mem_append.1 hh with hh | hh
      · exact hsub h hh
      · by_cases hc : self.m_hCursor = nullptr
        · simp [hc] at hh
        · simp only [ne_eq, hc, not_false_eq_true, if_true, List.mem_singleton] at hh
          rcases hown with hown | hown
          · exact absurd hown hc
          · rw [hh]; exact hown.1
    refine ⟨?_, ?_, ?_⟩
    · simp only [step]
      rw [hcr, hde]
      intro h hh
      exact List.mem_append_left _ (hdsub h hh)
    · simp only [step]
      rcases hfresh t3 info with hnull | hnotin
      · left; rw [hI]; exact hnull
      · right
        rw [← hI, hc3] at hnotin
        refine ⟨by rw [hcr]; simp, ?_⟩
        rw [hde]
        intro hmem
        exact hnotin (hdsub _ hmem)
    · simpa [step] using hact

theorem NoDangling_run (os : Os)
    (hfresh : ∀ t info, os.CreateIconIndirect t info = nullptr ∨
      os.CreateIconIndirect t info ∉ created t)
    (calls : List Call) (s : D3D9Cursor × Trace) (h : NoDangling s) :
    NoDangling (run os s calls) := by
  induction calls generalizing s with
  | nil => simpa [run] using h
  | cons c cs ih => simpa [run] using ih _ (NoDangling_step os hfresh s c h)

/-! ## The concrete systems return fresh handles -/

theorem le_sum_of_mem_handles (l : List Nat) (x : Nat) (hx : x ∈ l) : x ≤ l.sum := by
  induction l with
  | nil => simp at hx
  | cons a l ih =>
    rcases List.mem_cons.1 hx with rfl | hx
    · simp
    · have := ih hx
      simp only [List.sum_cons]
      omega

theorem sum_succ_not_mem (l : List Nat) : l.sum + 1 ∉ l := by
  intro hmem
  have := le_sum_of_mem_handles l _ hmem
  omega

theorem osFresh_fresh (t : Trace) (info : ICONINFO) :
    osFresh.CreateIconIndirect t info ≠ nullptr ∧
      osFresh.CreateIconIndirect t info ∉ created t :=
  ⟨by simp [osFresh, nullptr], sum_succ_not_mem (created t)⟩

theorem osFlaky_fresh (t : Trace) (info : ICONINFO) :
    osFlaky.CreateIconIndirect t info = nullptr ∨
      osFlaky.CreateIconIndirect t info ∉ created t := by
  by_cases h : (created t).length % 2 = 1
  · left; simp [osFlaky, h]
  · right; simp only [osFlaky, if_neg h]; exact sum_succ_not_mem (created t)

/-! ## Invariants over sequences of requests -/

/-- C6: from a controller that owns no icon and an empty history, when every
icon creation returns a fresh non-null handle, after every sequence of
requests that contains at least one `SetHardwareCursor` the owned handle is
non-null and is the only created handle that was not destroyed, and every other
created handle was passed to `DestroyCursor` exactly once (the owned one never). -/
theorem C6_single_owner_icon (os : Os) (self : D3D9Cursor) (calls : List Call)
    (hown : self.m_hCursor = nullptr)
    (hfresh : ∀ t info, os.CreateIconIndirect t info ≠ nullptr ∧
      os.CreateIconIndirect t info ∉ created t)
    (hset : ∃ c ∈ calls, c.isSetHardwareCursor = true) :
    (run os (self, []) calls).1.m_hCursor ≠ nullptr ∧
    liveIcons (run os (self, []) calls).2 = [(run os (self, []) calls).1.m_hCursor] ∧
    (∀ h ∈ created (run os (self, []) calls).2, h ≠ (run os (self, []) calls).1.m_hCursor →
      (destroyed (run os (self, []) calls).2).count h = 1) ∧
    (destroyed (run os (self, []) calls).2).count (run os (self, []) calls).1.m_hCursor = 0 ∧
    (created (run os (self, []) calls).2).Nodup := by
  have hinit : SingleOwner false (self, []) := by
    simp [SingleOwner, created, destroyed, hown]
  have hany : calls.any Call.isSetHardwareCursor = true := by
    obtain ⟨c, hc, hcs⟩ := hset
    exact List.any_eq_true.2 ⟨c, hc, hcs⟩
  have hinv := SingleOwner_run os hfresh calls false (self, []) hinit
  rw [hany] at hinv
  simp only [SingleOwner, Bool.or_true, if_true] at hinv
  obtain ⟨hnd, hnn, hcr⟩ := hinv
  have hnd2 := hnd
  rw [hcr] at hnd2
  have hdn : (destroyed (run os (self, []) calls).2).Nodup := (List.nodup_append.1 hnd2).1
  have hnot : (run os (self, []) calls).1.m_hCursor ∉ destroyed (run os (self, []) calls).2 := by
    intro hmem
    exact (List.nodup_append.1 hnd2).2.2 hmem (List.mem_singleton_self _)
  refine ⟨hnn, ?_, ?_, ?_, hnd⟩
  · unfold liveIcons
    rw [hcr, List.filter_append]
    have h1 : List.filter (fun h => decide (h ∉ destroyed (run os (self, []) calls).2))
        (destroyed (run os (self, []) calls).2) = [] := by
      rw [List.filter_eq_nil_iff]
      intro a ha
      simp [ha]
    rw [h1]
    simp [hnot]
  · intro h hmem hne
    rw [hcr] at hmem
    rcases List.mem_append.1 hmem with hmem | hmem
    · exact List.count_eq_one_of_mem hdn hmem
    · exact absurd (List.mem_singleton.1 hmem) hne
  · exact List.count_eq_zero_of_not_mem hnot

/-- Instance of the single-owner theorem on a scenario with two bitmap changes. -/
theorem C6_single_owner_icon_witness :
    liveIcons
        (run osFresh (⟨false, FALSE, nullptr⟩, [])
          [Call.SetHardwareCursor 0 0 sampleBitmap, Call.ShowCursor TRUE, Call.UpdateCursor 3 4,
            Call.SetHardwareCursor 4 4 sampleBitmap]).2 =
      [(run osFresh (⟨false, FALSE, nullptr⟩, [])
          [Call.SetHardwareCursor 0 0 sampleBitmap, Call.ShowCursor TRUE, Call.UpdateCursor 3 4,
            Call.SetHardwareCursor 4 4 sampleBitmap]).1.m_hCursor] ∧
    (run osFresh (⟨false, FALSE, nullptr⟩, [])
          [Call.SetHardwareCursor 0 0 sampleBitmap, Call.ShowCursor TRUE, Call.UpdateCursor 3 4,
            Call.SetHardwareCursor 4 4 sampleBitmap]).1.m_hCursor = 2 :=
  ⟨(C6_single_owner_icon osFresh ⟨false, FALSE, nullptr⟩
      [Call.SetHardwareCursor 0 0 sampleBitmap, Call.ShowCursor TRUE, Call.UpdateCursor 3 4,
        Call.SetHardwareCursor 4 4 sampleBitmap]
      rfl osFresh_fresh ⟨Call.SetHardwareCursor 0 0 sampleBitmap, by simp, rfl⟩).2.1,
   by decide⟩

/-- C9: from a controller that owns no icon and an empty history (active
cursor "none"), when every icon creation returns null or a fresh handle, after
every finite sequence of requests the owned handle is null or a handle that was
created and never destroyed, and the active cursor of the system is "none" or
the owned handle, which was never passed to `DestroyCursor`. -/
theorem C9_no_dangling_handle (os : Os) (self : D3D9Cursor) (calls : List Call)
    (hown : self.m_hCursor = nullptr)
    (hfresh : ∀ t info, os.CreateIconIndirect t info = nullptr ∨
      os.CreateIconIndirect t info ∉ created t) :
    ((run os (self, []) calls).1.m_hCursor = nullptr ∨
      ((run os (self, []) calls).1.m_hCursor ∈ created (run os (self, []) calls).2 ∧
        (run os (self, []) calls).1.m_hCursor ∉ destroyed (run os (self, []) calls).2)) ∧
    (activeCursor (run os (self, []) calls).2 = nullptr ∨
      (activeCursor (run os (self, []) calls).2 = (run os (self, []) calls).1.m_hCursor ∧
        activeCursor (run os (self, []) calls).2 ∉ destroyed (run os (self, []) calls).2)) := by
  have hinit : NoDangling (self, []) := by
    simp [NoDangling, created, destroyed, activeCursor, hown]
  obtain ⟨-, h2, h3⟩ := NoDangling_run os hfresh calls (self, []) hinit
  refine ⟨h2, ?_⟩
  rcases h3 with h3 | h3
  · exact Or.inl h3
  · rcases h2 with h2 | h2
    · left; rw [h3]; exact h2
    · right; exact ⟨h3, by rw [h3]; exact h2.2⟩

/-- Instance of the no-dangling theorem on a system whose second creation fails. -/
theorem C9_no_dangling_handle_witness :
    (run osFlaky (⟨false, TRUE, nullptr⟩, [])
        [Call.SetHardwareCursor 0 0 sampleBitmap, Call.SetHardwareCursor 4 4 sampleBitmap]).1.m_hCursor
      = nullptr ∧
    destroyed (run osFlaky (⟨false, TRUE, nullptr⟩, [])
        [Call.SetHardwareCursor 0 0 sampleBitmap, Call.SetHardwareCursor 4 4 sampleBitmap]).2
      = [1] ∧
    (activeCursor (run osFlaky (⟨false, TRUE, nullptr⟩, [])
        [Call.SetHardwareCursor 0 0 sampleBitmap, Call.SetHardwareCursor 4 4 sampleBitmap]).2
      = nullptr ∨
     (activeCursor (run osFlaky (⟨false, TRUE, nullptr⟩, [])
        [Call.SetHardwareCursor 0 0 sampleBitmap, Call.SetHardwareCursor 4 4 sampleBitmap]).2
      = (run osFlaky (⟨false, TRUE, nullptr⟩, [])
        [Call.SetHardwareCursor 0 0 sampleBitmap, Call.SetHardwareCursor 4 4 sampleBitmap]).1.m_hCursor ∧
      activeCursor (run osFlaky (⟨false, TRUE, nullptr⟩, [])
        [Call.SetHardwareCursor 0 0 sampleBitmap, Call.SetHardwareCursor 4 4 sampleBitmap]).2
      ∉ destroyed (run osFlaky (⟨false, TRUE, nullptr⟩, [])
        [Call.SetHardwareCursor 0 0 sampleBitmap, Call.SetHardwareCursor 4 4 sampleBitmap]).2)) :=
  ⟨by decide, by decide,
   (C9_no_dangling_handle osFlaky ⟨false, TRUE, nullptr⟩
      [Call.SetHardwareCursor 0 0 sampleBitmap, Call.SetHardwareCursor 4 4 sampleBitmap]
      rfl osFlaky_fresh).2⟩

end dxvk
